import Mathlib

/-!
Verification development for the `ltask` repository: a shallow embedding of
`src/schedule.rs` (interval indexer, day and week availability schedules) and
`src/task/bash.rs` (the canonical, sink-based `BashScriptTask`), together with
theorems settling the claims of the specification about them.

Rust panics (explicit `panic!`, integer division by zero, `Option::unwrap`,
out-of-bounds slice indexing) are modelled as `Except PanicKind` errors, so
every partial Rust function becomes a total Lean function whose error value
records which trap fired.  Machine integers (`usize`, `u32`) stay in range
throughout this code, so they are embedded as `Nat`.
-/

namespace LTask

/-- Embedding of `chrono::NaiveTime` as used by `schedule.rs`: an
hour/minute/second triple.  Validity (h < 24 etc.) is enforced by
`from_hms_opt`, mirroring the chrono constructor, not by the structure itself. -/
structure NaiveTime where
  hour : Nat
  minute : Nat
  second : Nat
deriving DecidableEq, Repr

/-- Embedding of `chrono::NaiveTime::from_hms_opt`: `some` exactly when the
triple is a valid time of day. -/
def NaiveTime.from_hms_opt (h m s : Nat) : Option NaiveTime :=
  if h < 24 ∧ m < 60 ∧ s < 60 then some ⟨h, m, s⟩ else none

/-- Embedding of `enum TimeStatus { Free, Busy }` from `schedule.rs`. -/
inductive TimeStatus
  | Free
  | Busy
deriving DecidableEq, Repr

/-- The ways the embedded `schedule.rs` code can panic.
`timeIndexOutOfRange` and `intervalSizeTooLarge` are the two explicit
`panic!` calls (the ConfigurationError of the spec); `divideByZero` is the
integer-division trap; `unwrapFailed` is `Option::unwrap` on `None`;
`sliceIndexOutOfRange` is `blocks[i]` out of bounds. -/
inductive PanicKind
  | timeIndexOutOfRange
  | intervalSizeTooLarge
  | divideByZero
  | unwrapFailed
  | sliceIndexOutOfRange
deriving DecidableEq, Repr

/-- Which panics correspond to the ConfigurationError taxonomy of the spec:
exactly the two explicit `panic!` calls in the interval indexer. -/
def PanicKind.isConfigError : PanicKind → Bool
  | .timeIndexOutOfRange => true
  | .intervalSizeTooLarge => true
  | _ => false

/-- Embedding of `fn index_to_time_range(index, interval_size)` from
`schedule.rs`.  Rust evaluates `1440 / interval_size` in the bounds check
before anything else, so `interval_size = 0` traps with a division by zero
ahead of both guards; that trap is the leading branch here. -/
def index_to_time_range (index interval_size : Nat) :
    Except PanicKind (NaiveTime × NaiveTime) :=
  if interval_size = 0 then .error .divideByZero
  else if index ≥ 1440 / interval_size then .error .timeIndexOutOfRange
  else if interval_size > 60 then .error .intervalSizeTooLarge
  else
    let start_minute := index * interval_size
    match NaiveTime.from_hms_opt (start_minute / 60) (start_minute % 60) 0 with
    | none => .error .unwrapFailed
    | some start =>
      let end_minute := (index + 1) * interval_size
      if end_minute ≥ 1440 then
        match NaiveTime.from_hms_opt 11 59 59 with
        | none => .error .unwrapFailed
        | some e => .ok (start, e)
      else
        match NaiveTime.from_hms_opt (end_minute / 60) (end_minute % 60) 0 with
        | none => .error .unwrapFailed
        | some e => .ok (start, e)

/-- Embedding of `fn time_to_range_index(time, interval_size)` from
`schedule.rs`: checks the interval size first, then floor-divides
minutes-since-midnight; division by `interval_size = 0` traps. -/
def time_to_range_index (time : NaiveTime) (interval_size : Nat) :
    Except PanicKind Nat :=
  if interval_size > 60 then .error .intervalSizeTooLarge
  else if interval_size = 0 then .error .divideByZero
  else .ok ((time.hour * 60 + time.minute) / interval_size)

/-- Embedding of `struct TimeBlock` from `schedule.rs`; the Rust field `end`
is a Lean keyword and is rendered `end_`. -/
structure TimeBlock where
  start : NaiveTime
  end_ : NaiveTime
  block_type : TimeStatus
deriving DecidableEq, Repr

/-- Embedding of `struct DaySchedule` from `schedule.rs`. -/
structure DaySchedule where
  blocks : List TimeBlock
  interval_size : Nat
deriving DecidableEq, Repr

/-- Embedding of `DaySchedule::new()` from `schedule.rs`: 96 blocks at the
default 15-minute interval, each initialized to `TimeStatus::Busy`. -/
def DaySchedule.new : Except PanicKind DaySchedule := do
  let interval_size := 15
  let blocks ← (List.range 96).mapM (fun i => do
    let r ← index_to_time_range i interval_size
    pure (⟨r.1, r.2, TimeStatus.Busy⟩ : TimeBlock))
  pure ⟨blocks, interval_size⟩

/-- Embedding of `DaySchedule::get_time_status`: index the time, then read
the status of that block; `blocks[index]` out of bounds panics. -/
def DaySchedule.get_time_status (d : DaySchedule) (time : NaiveTime) :
    Except PanicKind TimeStatus := do
  let index ← time_to_range_index time d.interval_size
  match d.blocks[index]? with
  | some b => pure b.block_type
  | none => .error .sliceIndexOutOfRange

/-- The loop body of `DaySchedule::set_time_status`: the Rust loop
`for i in start_index..end_index { self.blocks[i].block_type = status; }`,
unrolled as `n = end_index - i` remaining iterations; writing past the end of
`blocks` panics, and only the `block_type` field of each visited block is
replaced. -/
def setStatusLoop (blocks : List TimeBlock) (i n : Nat) (status : TimeStatus) :
    Except PanicKind (List TimeBlock) :=
  match n with
  | 0 => .ok blocks
  | n + 1 =>
    if h : i < blocks.length then
      let b := blocks.get ⟨i, h⟩
      setStatusLoop (blocks.set i ⟨b.start, b.end_, status⟩) (i + 1) n status
    else .error .sliceIndexOutOfRange

/-- Embedding of `DaySchedule::set_time_status`: compute both indices, then
set the status of every block in the half-open range. -/
def DaySchedule.set_time_status (d : DaySchedule) (start_time end_time : NaiveTime)
    (status : TimeStatus) : Except PanicKind DaySchedule := do
  let start_index ← time_to_range_index start_time d.interval_size
  let end_index ← time_to_range_index end_time d.interval_size
  let blocks ← setStatusLoop d.blocks start_index (end_index - start_index) status
  pure ⟨blocks, d.interval_size⟩

/-- Embedding of `chrono::Weekday`. -/
inductive Weekday
  | Mon | Tue | Wed | Thu | Fri | Sat | Sun
deriving DecidableEq, Repr

/-- Embedding of `struct WeekSchedule`: the Rust `HashMap<Weekday, DaySchedule>`
always holds all seven weekdays (the only constructor, `default`, inserts each
one), so it is embedded as a total function from weekday to day schedule. -/
structure WeekSchedule where
  days : Weekday → DaySchedule

/-- Embedding of `WeekSchedule::default()`: a fresh `DaySchedule::new()` for
every weekday (the seven Rust calls all produce the same value). -/
def WeekSchedule.default : Except PanicKind WeekSchedule := do
  let d ← DaySchedule.new
  pure ⟨fun _ => d⟩

/-- Embedding of `WeekSchedule::get_time_status`: delegate to the named
day schedule of the named weekday. -/
def WeekSchedule.get_time_status (w : WeekSchedule) (day : Weekday)
    (time : NaiveTime) : Except PanicKind TimeStatus :=
  (w.days day).get_time_status time

/-- Embedding of `WeekSchedule::set_time_status`: delegate to the named
day schedule of the named weekday, leaving the entry of every other weekday untouched. -/
def WeekSchedule.set_time_status (w : WeekSchedule) (day : Weekday)
    (start_time end_time : NaiveTime) (status : TimeStatus) :
    Except PanicKind WeekSchedule := do
  let d ← (w.days day).set_time_status start_time end_time status
  pure ⟨fun x => if x = day then d else w.days x⟩

/-! ## Runnable task (`src/task/bash.rs`, the canonical sink-based revision)

The OS interactions are abstracted as explicit inputs: the filesystem facts
`BashScriptTask::new` queries become a `FileMeta` record, the outcome of
`Command::spawn` becomes an `Except String Child` argument to `start`, the
result of a non-blocking `try_wait` poll becomes an `Option ExitInfo`
argument to `status`, and the outcome of `Child::kill` becomes an
`Except String Unit` argument to `kill`.  The pure decision logic around
those inputs is translated from the source unchanged. -/

/-- Embedding of `enum RunnableStatus` from `tasks.rs`. -/
inductive RunnableStatus
  | Waiting
  | Running
  | Finished
  | Killed
  | Error (msg : String)
deriving DecidableEq, Repr

/-- The `std::io::ErrorKind` values `BashScriptTask::new` can produce. -/
inductive IOErrorKind
  | NotFound
  | InvalidInput
  | PermissionDenied
deriving DecidableEq, Repr

/-- What `BashScriptTask::new` observes about the script path on the
filesystem: `script.exists()`, `script.is_file()`, and the POSIX permission
mode from `script.metadata().permissions().mode()`. -/
structure FileMeta where
  pathExists : Bool
  isFile : Bool
  mode : Nat
deriving DecidableEq, Repr

/-- An owned child-process handle (`std::process::Child`), opaque here. -/
structure Child where
  pid : Nat
deriving DecidableEq, Repr

/-- What a successful non-blocking `try_wait` poll reports once the process
has exited: `ExitStatus::success()` and the `Display` rendering of the exit
status. -/
structure ExitInfo where
  success : Bool
  display : String
deriving DecidableEq, Repr

/-- Embedding of `struct BashScriptTask`: the script path and an optional
owned process handle (the `RefCell` wrapper has no observable pure content). -/
structure BashScriptTask where
  script : String
  proc : Option Child
deriving DecidableEq, Repr

/-- Embedding of `BashScriptTask::new` from `bash.rs`: validate existence,
regular-file-ness and the POSIX execute bits `mode & 0o111`, in that order,
before any process is spawned; on success the task owns no process. -/
def BashScriptTask.new (script : String) (meta : FileMeta) :
    Except IOErrorKind BashScriptTask :=
  if !meta.pathExists then .error .NotFound
  else if !meta.isFile then .error .InvalidInput
  else if Nat.land meta.mode 0o111 = 0 then .error .PermissionDenied
  else .ok ⟨script, none⟩

/-- Embedding of `BashScriptTask::start` from `bash.rs`; `spawnResult` is the
outcome of `Command::new("bash").arg(script).stdout(output).stderr(error)
.spawn()`.  On failure the task is returned unchanged with an `Error` status;
on success it takes ownership of the new handle and reports `Running`. -/
def BashScriptTask.start (t : BashScriptTask) (spawnResult : Except String Child) :
    RunnableStatus × BashScriptTask :=
  match spawnResult with
  | .error e => (.Error ("Failed to start script: " ++ e), t)
  | .ok c => (.Running, ⟨t.script, some c⟩)

/-- Embedding of `BashScriptTask::status` from `bash.rs`; `poll` is what a
successful non-blocking `try_wait` on the owned process returns (`none` while
the process is still running), ignored when no process is owned. -/
def BashScriptTask.status (t : BashScriptTask) (poll : Option ExitInfo) :
    RunnableStatus :=
  match t.proc with
  | some _ =>
    match poll with
    | some st =>
      if st.success then .Finished
      else .Error ("Script failed with status " ++ st.display)
    | none => .Running
  | none => .Waiting

/-- Embedding of `BashScriptTask::kill` from `bash.rs`; `killResult` is the
outcome of `Child::kill` on the owned process, ignored when no process is
owned (in which case the call is a no-op returning `Waiting`). -/
def BashScriptTask.kill (t : BashScriptTask) (killResult : Except String Unit) :
    RunnableStatus :=
  match t.proc with
  | some _ =>
    match killResult with
    | .ok _ => .Killed
    | .error _ => .Error ("Failed to kill script")
  | none => .Waiting

/-! ## Theorems settling the claims -/

/-- `from_hms_opt` succeeds on any valid time-of-day triple. -/
theorem from_hms_opt_eq_some (h m s : Nat) (hh : h < 24) (hm : m < 60) (hs : s < 60) :
    NaiveTime.from_hms_opt h m s = some ⟨h, m, s⟩ := by
  unfold NaiveTime.from_hms_opt
  rw [if_pos ⟨hh, hm, hs⟩]

/-- On valid inputs (`0 < s ≤ 60`, `i < 1440 / s`) the interval indexer
succeeds, with the start at `i * s` minutes past midnight and the end either
the (mis-)clamped `11:59:59` or `(i+1) * s` minutes past midnight. -/
theorem index_to_time_range_eq_of_valid (i s : Nat) (hs1 : 0 < s) (hs2 : s ≤ 60)
    (hi : i < 1440 / s) :
    index_to_time_range i s =
      .ok (⟨i * s / 60, i * s % 60, 0⟩,
        if (i + 1) * s ≥ 1440 then ⟨11, 59, 59⟩
        else ⟨(i + 1) * s / 60, (i + 1) * s % 60, 0⟩) := by
  have hexp : (i + 1) * s = i * s + s := by ring
  have h2 : (i + 1) * s ≤ (1440 / s) * s := Nat.mul_le_mul_right s hi
  have h3 : (1440 / s) * s ≤ 1440 := Nat.div_mul_le_self 1440 s
  have hism : i * s < 1440 := by omega
  have hstart := from_hms_opt_eq_some (i * s / 60) (i * s % 60) 0
    (by omega) (by omega) (by omega)
  unfold index_to_time_range
  rw [if_neg (by omega), if_neg (by omega), if_neg (by omega)]
  simp only [hstart]
  by_cases hend : (i + 1) * s ≥ 1440
  · rw [if_pos hend, if_pos hend]
    simp [from_hms_opt_eq_some 11 59 59 (by omega) (by omega) (by omega)]
  · rw [if_neg hend, if_neg hend]
    simp [from_hms_opt_eq_some ((i + 1) * s / 60) ((i + 1) * s % 60) 0
      (by omega) (by omega) (by omega)]

/-- Claim C2: feeding the start time returned by `index_to_time_range i s`
back through `time_to_range_index` recovers `i`, and more generally every
time of day whose minutes-since-midnight lie inside the span
`[i*s, (i+1)*s)` of block `i` maps to index `i` — floor/bucket semantics. -/
theorem time_index_roundtrip (i s : Nat) (hs1 : 1 ≤ s) (hs2 : s ≤ 60)
    (hi : i < 1440 / s) :
    ((index_to_time_range i s).bind (fun r => time_to_range_index r.1 s) =
      Except.ok i) ∧
    (∀ t : NaiveTime, i * s ≤ t.hour * 60 + t.minute →
      t.hour * 60 + t.minute < (i + 1) * s → time_to_range_index t s = .ok i) := by
  constructor
  · rw [index_to_time_range_eq_of_valid i s hs1 hs2 hi]
    show time_to_range_index ⟨i * s / 60, i * s % 60, 0⟩ s = .ok i
    unfold time_to_range_index
    rw [if_neg (by omega), if_neg (by omega)]
    have hm : i * s / 60 * 60 + i * s % 60 = i * s := by omega
    simp only [hm]
    rw [Nat.mul_div_cancel i hs1]
  · intro t h1 h2
    unfold time_to_range_index
    rw [if_neg (by omega), if_neg (by omega)]
    rw [Nat.div_eq_of_lt_le h1 h2]

/-- Witness for claim C2 at concrete inputs: block 9 of the 15-minute grid
starts at 02:15 and maps back to index 9, and 02:17 (strictly inside the
block) also maps to index 9. -/
theorem time_index_roundtrip_witness :
    ((index_to_time_range 9 15).bind (fun r => time_to_range_index r.1 15) =
      Except.ok 9) ∧
    time_to_range_index ⟨2, 17, 0⟩ 15 = .ok 9 := by
  have h := time_index_roundtrip 9 15 (by decide) (by decide) (by decide)
  exact ⟨h.1, h.2 ⟨2, 17, 0⟩ (by decide) (by decide)⟩

/-- Claim C6: for positive interval sizes, `index_to_time_range` fails — with
one of the two configuration-error panics — exactly when `interval_size > 60`
or `index ≥ 1440 / interval_size`, succeeding otherwise; and
`time_to_range_index` fails exactly when `interval_size > 60`, with the
interval-size configuration-error panic. -/
theorem interval_indexer_config_errors (i s : Nat) (t : NaiveTime) (hs : 0 < s) :
    (s > 60 ∨ i ≥ 1440 / s →
      ∃ e, index_to_time_range i s = .error e ∧ e.isConfigError = true) ∧
    (¬(s > 60 ∨ i ≥ 1440 / s) → ∃ r, index_to_time_range i s = .ok r) ∧
    (s > 60 → time_to_range_index t s = .error .intervalSizeTooLarge) ∧
    (s ≤ 60 → time_to_range_index t s = .ok ((t.hour * 60 + t.minute) / s)) := by
  refine ⟨?_, ?_, ?_, ?_⟩
  · intro hcond
    unfold index_to_time_range
    rw [if_neg (by omega)]
    by_cases hidx : i ≥ 1440 / s
    · rw [if_pos hidx]
      exact ⟨.timeIndexOutOfRange, rfl, rfl⟩
    · rw [if_neg hidx, if_pos (by omega)]
      exact ⟨.intervalSizeTooLarge, rfl, rfl⟩
  · intro hcond
    push_neg at hcond
    rw [index_to_time_range_eq_of_valid i s hs (by omega) (by omega)]
    exact ⟨_, rfl⟩
  · intro hgt
    unfold time_to_range_index
    rw [if_pos hgt]
  · intro hle
    unfold time_to_range_index
    rw [if_neg (by omega), if_neg (by omega)]

/-- Witness for claim C6 at concrete inputs: interval size 61 is rejected by
`time_to_range_index`, and interval size 15 with a valid time succeeds. -/
theorem interval_indexer_config_errors_witness :
    time_to_range_index ⟨0, 0, 0⟩ 61 = .error .intervalSizeTooLarge ∧
    time_to_range_index ⟨2, 17, 0⟩ 15 = .ok ((2 * 60 + 17) / 15) := by
  exact ⟨(interval_indexer_config_errors 0 61 ⟨0, 0, 0⟩ (by decide)).2.2.1 (by decide),
    (interval_indexer_config_errors 0 15 ⟨2, 17, 0⟩ (by decide)).2.2.2 (by decide)⟩

/-- `Except.ok` fed into a monadic bind reduces to the continuation. -/
theorem ok_bind {ε α β : Type} (a : α) (f : α → Except ε β) :
    (Except.ok a : Except ε α) >>= f = f a := rfl

/-- `Except.error` fed into a monadic bind short-circuits. -/
theorem error_bind {ε α β : Type} (e : ε) (f : α → Except ε β) :
    (Except.error e : Except ε α) >>= f = .error e := rfl

/-- What a successful run of the `set_time_status` loop body does: the block
list keeps its length, every index in the visited half-open range `[i, i+n)`
keeps its start and end bounds but takes the new status, and every other
index is untouched. -/
theorem setStatusLoop_ok_spec (n : Nat) :
    ∀ (blocks out : List TimeBlock) (i : Nat) (status : TimeStatus),
    setStatusLoop blocks i n status = .ok out →
    out.length = blocks.length ∧
    ∀ j, (i ≤ j ∧ j < i + n →
        out[j]? = (blocks[j]?).map (fun b => ⟨b.start, b.end_, status⟩)) ∧
      (¬(i ≤ j ∧ j < i + n) → out[j]? = blocks[j]?) := by
  induction n with
  | zero =>
    intro blocks out i status h
    unfold setStatusLoop at h
    injection h with h
    subst h
    exact ⟨rfl, fun j => ⟨fun hj => absurd hj (by omega), fun _ => rfl⟩⟩
  | succ n ih =>
    intro blocks out i status h
    unfold setStatusLoop at h
    split at h
    case isTrue hlt =>
      obtain ⟨hlen, hspec⟩ := ih _ out (i + 1) status h
      refine ⟨by rw [hlen, List.length_set], fun j => ⟨?_, ?_⟩⟩
      · rintro ⟨h1, h2⟩
        by_cases hji : j = i
        · subst hji
          rw [(hspec j).2 (by omega), List.getElem?_set_self hlt,
            List.getElem?_eq_getElem hlt]
          simp [List.get_eq_getElem]
        · rw [(hspec j).1 ⟨by omega, by omega⟩, List.getElem?_set_ne (by omega)]
      · intro hout
        rw [(hspec j).2 (by omega), List.getElem?_set_ne (by omega)]
    case isFalse hge =>
      exact Except.noConfusion h

/-- Claim C4: a successful `set_time_status start_time end_time status` call
sets the status of exactly the blocks whose index lies in the half-open range
`[time_to_range_index start_time, time_to_range_index end_time)`, keeps every
other block identical, preserves the start and end bounds of every block, and
leaves `interval_size` unchanged. -/
theorem set_time_status_spec (d : DaySchedule) (st et : NaiveTime) (s : TimeStatus)
    (si ei : Nat)
    (hsi : time_to_range_index st d.interval_size = .ok si)
    (hei : time_to_range_index et d.interval_size = .ok ei)
    (d2 : DaySchedule)
    (h : d.set_time_status st et s = .ok d2) :
    d2.interval_size = d.interval_size ∧
    d2.blocks.length = d.blocks.length ∧
    ∀ j, (si ≤ j ∧ j < ei →
        d2.blocks[j]? = (d.blocks[j]?).map (fun b => ⟨b.start, b.end_, s⟩)) ∧
      (¬(si ≤ j ∧ j < ei) → d2.blocks[j]? = d.blocks[j]?) := by
  unfold DaySchedule.set_time_status at h
  rw [hsi, ok_bind] at h
  rw [hei, ok_bind] at h
  cases hloop : setStatusLoop d.blocks si (ei - si) s with
  | error e =>
    rw [hloop, error_bind] at h
    exact Except.noConfusion h
  | ok bs =>
    rw [hloop, ok_bind] at h
    have h2 : Except.ok (⟨bs, d.interval_size⟩ : DaySchedule) = Except.ok d2 := h
    injection h2 with h2
    subst h2
    obtain ⟨hlen, hspec⟩ := setStatusLoop_ok_spec (ei - si) d.blocks bs si s hloop
    refine ⟨rfl, hlen, fun j => ⟨?_, ?_⟩⟩
    · rintro ⟨h1, h2⟩
      exact (hspec j).1 ⟨h1, by omega⟩
    · intro hout
      exact (hspec j).2 (by omega)

/-- Witness for claim C4 at a concrete input: setting `[00:00, 00:15)` to
`Free` on a two-block 15-minute schedule keeps `interval_size` and leaves
block 1 (outside the written range) unchanged. -/
theorem set_time_status_spec_witness :
    (⟨[⟨⟨0, 0, 0⟩, ⟨0, 15, 0⟩, .Free⟩, ⟨⟨0, 15, 0⟩, ⟨0, 30, 0⟩, .Busy⟩], 15⟩ :
        DaySchedule).interval_size =
      (⟨[⟨⟨0, 0, 0⟩, ⟨0, 15, 0⟩, .Busy⟩, ⟨⟨0, 15, 0⟩, ⟨0, 30, 0⟩, .Busy⟩], 15⟩ :
        DaySchedule).interval_size ∧
    (⟨[⟨⟨0, 0, 0⟩, ⟨0, 15, 0⟩, .Free⟩, ⟨⟨0, 15, 0⟩, ⟨0, 30, 0⟩, .Busy⟩], 15⟩ :
        DaySchedule).blocks[1]? =
      (⟨[⟨⟨0, 0, 0⟩, ⟨0, 15, 0⟩, .Busy⟩, ⟨⟨0, 15, 0⟩, ⟨0, 30, 0⟩, .Busy⟩], 15⟩ :
        DaySchedule).blocks[1]? := by
  have h := set_time_status_spec
    ⟨[⟨⟨0, 0, 0⟩, ⟨0, 15, 0⟩, .Busy⟩, ⟨⟨0, 15, 0⟩, ⟨0, 30, 0⟩, .Busy⟩], 15⟩
    ⟨0, 0, 0⟩ ⟨0, 15, 0⟩ .Free 0 1 rfl rfl
    ⟨[⟨⟨0, 0, 0⟩, ⟨0, 15, 0⟩, .Free⟩, ⟨⟨0, 15, 0⟩, ⟨0, 30, 0⟩, .Busy⟩], 15⟩ rfl
  exact ⟨h.1, (h.2.2 1).2 (by omega)⟩

/-- Claim C5: a successful `WeekSchedule.set_time_status` on one weekday
leaves the readings of every other weekday unchanged — `get_time_status` on any
other weekday and any time returns the same result before and after. -/
theorem week_set_time_status_isolated (w : WeekSchedule) (day : Weekday)
    (st et : NaiveTime) (s : TimeStatus) (w2 : WeekSchedule)
    (h : w.set_time_status day st et s = .ok w2)
    (d2 : Weekday) (hne : d2 ≠ day) (t : NaiveTime) :
    w2.get_time_status d2 t = w.get_time_status d2 t := by
  unfold WeekSchedule.set_time_status at h
  cases hset : (w.days day).set_time_status st et s with
  | error e =>
    rw [hset, error_bind] at h
    exact Except.noConfusion h
  | ok dnew =>
    rw [hset, ok_bind] at h
    have h2 : Except.ok (⟨fun x => if x = day then dnew else w.days x⟩ : WeekSchedule) =
        Except.ok w2 := h
    injection h2 with h2
    subst h2
    unfold WeekSchedule.get_time_status
    simp [hne]

/-- Witness for claim C5 at a concrete input: after the first block of
Tuesday is set to `Free` on a week of identical two-block days, the Monday
reading at 00:03 is the same as before the write. -/
theorem week_set_time_status_isolated_witness :
    (⟨fun x => if x = Weekday.Tue then
        ⟨[⟨⟨0, 0, 0⟩, ⟨0, 15, 0⟩, .Free⟩, ⟨⟨0, 15, 0⟩, ⟨0, 30, 0⟩, .Busy⟩], 15⟩
      else
        ⟨[⟨⟨0, 0, 0⟩, ⟨0, 15, 0⟩, .Busy⟩, ⟨⟨0, 15, 0⟩, ⟨0, 30, 0⟩, .Busy⟩], 15⟩⟩ :
      WeekSchedule).get_time_status Weekday.Mon ⟨0, 3, 0⟩ =
    (⟨fun _ =>
        ⟨[⟨⟨0, 0, 0⟩, ⟨0, 15, 0⟩, .Busy⟩, ⟨⟨0, 15, 0⟩, ⟨0, 30, 0⟩, .Busy⟩], 15⟩⟩ :
      WeekSchedule).get_time_status Weekday.Mon ⟨0, 3, 0⟩ := by
  exact week_set_time_status_isolated
    ⟨fun _ => ⟨[⟨⟨0, 0, 0⟩, ⟨0, 15, 0⟩, .Busy⟩, ⟨⟨0, 15, 0⟩, ⟨0, 30, 0⟩, .Busy⟩], 15⟩⟩
    Weekday.Tue ⟨0, 0, 0⟩ ⟨0, 15, 0⟩ .Free
    ⟨fun x => if x = Weekday.Tue then
        ⟨[⟨⟨0, 0, 0⟩, ⟨0, 15, 0⟩, .Free⟩, ⟨⟨0, 15, 0⟩, ⟨0, 30, 0⟩, .Busy⟩], 15⟩
      else
        ⟨[⟨⟨0, 0, 0⟩, ⟨0, 15, 0⟩, .Busy⟩, ⟨⟨0, 15, 0⟩, ⟨0, 30, 0⟩, .Busy⟩], 15⟩⟩
    rfl Weekday.Mon (by decide) ⟨0, 3, 0⟩

/-- Claim C1 (code evaluated at the failing input): for the last 15-minute
index, `index_to_time_range 95 15` returns start `23:45:00` and end
`11:59:59` — not the `23:59:59` end-of-day clamp the specification states
(and in the source itself the last-block end precedes its start). -/
theorem index_to_time_range_last_block_end_eval :
    index_to_time_range 95 15 =
      .ok (⟨23, 45, 0⟩, ⟨11, 59, 59⟩) ∧
    (⟨11, 59, 59⟩ : NaiveTime) ≠ ⟨23, 59, 59⟩ := by
  exact ⟨rfl, by decide⟩

/-- Claim C3, counterexample: a freshly constructed `DaySchedule` does not
have all blocks `Free` — block 0 (and in fact every block) is `Busy`. -/
theorem daySchedule_new_default_not_free :
    DaySchedule.new.map (fun d => d.blocks.all (fun b => b.block_type == TimeStatus.Free)) =
      .ok false ∧
    DaySchedule.new.map (fun d => (d.blocks[0]?).map (fun b => b.block_type)) =
      .ok (some TimeStatus.Busy) ∧
    TimeStatus.Busy ≠ TimeStatus.Free := by
  exact ⟨rfl, rfl, by decide⟩

/-- Claim C3 as amended: `DaySchedule.new` succeeds with interval size 15 and
96 blocks, all sharing the single uniform status `Busy`. -/
theorem daySchedule_new_uniform_busy :
    DaySchedule.new.map
        (fun d => (d.interval_size, d.blocks.length,
          d.blocks.all (fun b => b.block_type == TimeStatus.Busy))) =
      .ok (15, 96, true) := rfl

/-- Claim C10: with `interval_size = 0`, both interval-indexer functions hit
the unguarded integer division and trap with a division by zero, which is not
one of the two handled configuration-error panics. -/
theorem interval_size_zero_divides_by_zero (i : Nat) (t : NaiveTime) :
    index_to_time_range i 0 = .error .divideByZero ∧
    time_to_range_index t 0 = .error .divideByZero ∧
    PanicKind.divideByZero.isConfigError = false := by
  exact ⟨rfl, rfl, rfl⟩

/-- Claim C7: `BashScriptTask.new` validates in order — `NotFound` when the
path does not exist, `InvalidInput` when it exists but is not a regular file,
`PermissionDenied` when no POSIX execute bit (`mode & 0o111`) is set — and
otherwise succeeds with no owned process and initial status `Waiting`. -/
theorem bashScriptTask_new_validation (script : String) (meta : FileMeta) :
    (meta.pathExists = false →
      BashScriptTask.new script meta = .error .NotFound) ∧
    (meta.pathExists = true → meta.isFile = false →
      BashScriptTask.new script meta = .error .InvalidInput) ∧
    (meta.pathExists = true → meta.isFile = true → Nat.land meta.mode 0o111 = 0 →
      BashScriptTask.new script meta = .error .PermissionDenied) ∧
    (meta.pathExists = true → meta.isFile = true → Nat.land meta.mode 0o111 ≠ 0 →
      BashScriptTask.new script meta = .ok ⟨script, none⟩ ∧
      ∀ poll, BashScriptTask.status ⟨script, none⟩ poll = .Waiting) := by
  refine ⟨?_, ?_, ?_, ?_⟩
  · intro h
    simp [BashScriptTask.new, h]
  · intro h1 h2
    simp [BashScriptTask.new, h1, h2]
  · intro h1 h2 h3
    simp [BashScriptTask.new, h1, h2, h3]
  · intro h1 h2 h3
    refine ⟨by simp [BashScriptTask.new, h1, h2, h3], fun poll => rfl⟩

/-- Witness for claim C7 at a concrete input: an existing regular file with
mode `0o755` yields a task with no process whose status is `Waiting`. -/
theorem bashScriptTask_new_validation_witness :
    BashScriptTask.new ("job.sh") ⟨true, true, 493⟩ = .ok ⟨"job.sh", none⟩ ∧
    BashScriptTask.status ⟨"job.sh", none⟩ none = .Waiting := by
  have h := (bashScriptTask_new_validation ("job.sh") ⟨true, true, 493⟩).2.2.2
      rfl rfl (by decide)
  exact ⟨h.1, h.2 none⟩

/-- Claim C8: when the spawn fails, `start` returns `Error(message)` and the
task acquires no owned process (so a later `status` still reports no owned
process, `Waiting`); when the spawn succeeds, the task takes ownership of the
new handle and `start` returns `Running`. -/
theorem bashScriptTask_start_spawn (t : BashScriptTask) (h : t.proc = none) :
    (∀ e, (t.start (.error e)).1 = .Error ("Failed to start script: " ++ e) ∧
      (t.start (.error e)).2.proc = none ∧
      ∀ poll, ((t.start (.error e)).2).status poll = .Waiting) ∧
    (∀ c, (t.start (.ok c)).1 = .Running ∧ (t.start (.ok c)).2.proc = some c) := by
  refine ⟨fun e => ⟨rfl, h, fun poll => ?_⟩, fun c => ⟨rfl, rfl⟩⟩
  simp [BashScriptTask.start, BashScriptTask.status, h]

/-- Witness for claim C8 at a concrete input: a fresh task whose spawn fails
keeps `proc = none`, and one whose spawn succeeds owns the new handle. -/
theorem bashScriptTask_start_spawn_witness :
    ((⟨"job.sh", none⟩ : BashScriptTask).start (.error ("no such file"))).1 =
      .Error ("Failed to start script: no such file") ∧
    ((⟨"job.sh", none⟩ : BashScriptTask).start (.error ("no such file"))).2.proc = none ∧
    ((⟨"job.sh", none⟩ : BashScriptTask).start (.ok ⟨7⟩)).2.proc = some ⟨7⟩ := by
  have h := bashScriptTask_start_spawn ⟨"job.sh", none⟩ rfl
  exact ⟨(h.1 ("no such file")).1, (h.1 ("no such file")).2.1, (h.2 ⟨7⟩).2⟩

/-- Claim C9: the observable lifecycle — successful `start` from the
no-process state returns `Running`; polling an owned live process returns
`Running`; polling an observed successful exit returns `Finished`; polling an
observed failing exit returns `Error` whose message includes the exit status;
`kill` on an owned process returns `Killed` on successful signal delivery and
`Error("Failed to kill script")` on failure; `kill` with no owned process is
a no-op returning `Waiting`. -/
theorem bashScriptTask_lifecycle (t : BashScriptTask) (c : Child) (d : String) :
    (t.proc = none → ∀ h, (t.start (.ok h)).1 = .Running) ∧
    (t.proc = some c → t.status none = .Running) ∧
    (t.proc = some c → t.status (some ⟨true, d⟩) = .Finished) ∧
    (t.proc = some c →
      t.status (some ⟨false, d⟩) = .Error ("Script failed with status " ++ d)) ∧
    (t.proc = some c → t.kill (.ok ()) = .Killed) ∧
    (t.proc = some c → ∀ e, t.kill (.error e) = .Error ("Failed to kill script")) ∧
    (t.proc = none → ∀ kr, t.kill kr = .Waiting) := by
  refine ⟨fun _ h => rfl, fun h => ?_, fun h => ?_, fun h => ?_, fun h => ?_,
    fun h e => ?_, fun h kr => ?_⟩ <;>
    simp [BashScriptTask.status, BashScriptTask.kill, h]

/-- Witness for claim C9 at concrete inputs: each lifecycle transition
evaluated on a task with (or without) a concrete owned process. -/
theorem bashScriptTask_lifecycle_witness :
    ((⟨"job.sh", none⟩ : BashScriptTask).start (.ok ⟨7⟩)).1 = .Running ∧
    (⟨"job.sh", some ⟨7⟩⟩ : BashScriptTask).status none = .Running ∧
    (⟨"job.sh", some ⟨7⟩⟩ : BashScriptTask).status (some ⟨true, "exit status: 0"⟩) =
      .Finished ∧
    (⟨"job.sh", some ⟨7⟩⟩ : BashScriptTask).status (some ⟨false, "exit status: 2"⟩) =
      .Error ("Script failed with status " ++ "exit status: 2") ∧
    (⟨"job.sh", some ⟨7⟩⟩ : BashScriptTask).kill (.ok ()) = .Killed ∧
    (⟨"job.sh", some ⟨7⟩⟩ : BashScriptTask).kill (.error ("ESRCH")) =
      .Error ("Failed to kill script") ∧
    (⟨"job.sh", none⟩ : BashScriptTask).kill (.ok ()) = .Waiting := by
  have h1 := bashScriptTask_lifecycle ⟨"job.sh", none⟩ ⟨7⟩ "exit status: 0"
  have h2 := bashScriptTask_lifecycle ⟨"job.sh", some ⟨7⟩⟩ ⟨7⟩ "exit status: 0"
  have h3 := bashScriptTask_lifecycle ⟨"job.sh", some ⟨7⟩⟩ ⟨7⟩ "exit status: 2"
  exact ⟨h1.1 rfl ⟨7⟩, h2.2.1 rfl, h2.2.2.1 rfl, h3.2.2.2.1 rfl,
    h2.2.2.2.2.1 rfl, h2.2.2.2.2.2.1 rfl ("ESRCH"), h1.2.2.2.2.2.2 rfl (.ok ())⟩

end LTask
